import Mathlib

/-!
Verification of the per-frame simulation engine of the Ninja Slicer game
(React/TypeScript) against its natural-language specification.

The game loop (`MotionGame` component) is shallowly embedded below.  Numbers
(`number` in JS) are modelled over a generic `LinearOrderedField K`, so all
definitions are computable; theorems instantiate `K := ℚ` for executable
witnesses and `K := ℝ` where real trigonometry or square roots matter.
Transcendental library functions (`Math.cos`, `Math.sin`, `Math.atan2`,
`Math.PI`) are passed in as a `MathOps` record; at `K := ℝ` they are
instantiated with `Real.cos`, `Real.sin`, `Real.pi`.

The embedded state carries exactly the fields the verified claims are about
(score, lives, counters, combo, spawn timers, fruit and debris collections,
the session state machine); purely cosmetic populations (particle bursts,
floating labels, screen shake, flash) do not feed back into any verified
quantity and are omitted.
-/

set_option maxHeartbeats 1000000

namespace NinjaSlicer

/-- States of the top-level session state machine (`GameState` in types.ts). -/
inductive GameState where
  | MENU
  | PLAYING
  | GAME_OVER
deriving DecidableEq, Repr

/-- Kinds of projectile (the `type` field of `Fruit`). -/
inductive FruitType where
  | apple | banana | orange | watermelon | pineapple | peach | coconut | grapes | bomb
deriving DecidableEq, Repr

/-- A 2D point, as used for hand points and trail samples (`Point`). -/
structure Point (K : Type) where
  x : K
  y : K
deriving DecidableEq, Repr

/-- A projectile (fruit or bomb), mirroring the `Fruit` interface. -/
structure Fruit (K : Type) where
  id : K
  x : K
  y : K
  vx : K
  vy : K
  rotation : K
  rotationSpeed : K
  type : FruitType
  radius : K
  sliced : Bool
  color : String
  emoji : String
deriving DecidableEq, Repr

/-- A post-slice fruit half, mirroring the `Debris` interface.
`id` is a random tag in the source (`Math.random()`); it is threaded in from
the debris pair constructor's caller-independent default of the fruit id,
which is immaterial to every verified property. -/
structure Debris (K : Type) where
  x : K
  y : K
  vx : K
  vy : K
  rotation : K
  rotationSpeed : K
  emoji : String
  radius : K
  cutAngle : K
  side : Bool      -- `false` = 'left', `true` = 'right'
  life : K
  opacity : K
deriving DecidableEq, Repr

/-- The math library surface the loop uses (`Math.cos`, `Math.sin`,
`Math.atan2`, `Math.PI`), abstracted so the embedding stays computable. -/
structure MathOps (K : Type) where
  kcos : K → K
  ksin : K → K
  katan2 : K → K → K
  kpi : K

/-- Constants from the top of MotionGame.tsx. -/
def GRAVITY {K : Type} [LinearOrderedField K] : K := 1500

def BASE_SPAWN_INTERVAL {K : Type} [LinearOrderedField K] : K := 4/5

def MAX_LIVES : ℤ := 3

def FRUIT_LIFETIME_Y_OFFSET {K : Type} [LinearOrderedField K] : K := 150

def COMBO_WINDOW {K : Type} [LinearOrderedField K] : K := 3/10

/-- The mutable per-session state owned by the game component: score, lives,
counters, combo tracker, spawn timers, entity collections and the session
state machine, as held in the refs of `MotionGame`. -/
structure GState (K : Type) where
  score : K
  lives : ℤ
  slicedCount : ℕ
  bombsHit : ℕ
  combo : ℕ
  lastSliceTime : K
  timeSinceSpawn : K
  spawnTimer : K
  fruits : List (Fruit K)
  debris : List (Debris K)
  waitingForHand : Bool
  gameState : GameState
deriving DecidableEq, Repr

/-- Observable events a tick emits: a slice outcome (with the points awarded),
a bomb-hit outcome, and the game-over report `onGameOver(score, sliced, bombs)`. -/
inductive GEvent (K : Type) where
  | slice (id : K) (points : K)
  | bombHit (id : K)
  | report (score : K) (sliced : ℕ) (bombs : ℕ)
deriving DecidableEq, Repr

def isBombEv {K : Type} : GEvent K → Bool
  | .bombHit _ => true
  | _ => false

def isReportEv {K : Type} : GEvent K → Bool
  | .report _ _ _ => true
  | _ => false

section Defs

variable {K : Type} [LinearOrderedField K]

/-- `difficulty = 1 + Math.min(score / 500, 2.0)` (line 628). -/
def difficultyOf (score : K) : K := 1 + min (score / 500) 2

/-- Euler integration of one projectile for one tick (lines 662–665):
position by old velocity, then vertical velocity by difficulty-scaled
gravity, then rotation. -/
def integrateFruit (difficulty dt : K) (f : Fruit K) : Fruit K :=
  { f with
    x := f.x + f.vx * dt
    y := f.y + f.vy * dt
    vy := f.vy + (GRAVITY * (1 + (difficulty - 1) * (1/10))) * dt
    rotation := f.rotation + f.rotationSpeed * dt }

/-- The last `n` elements of a list in order (`Array.prototype.slice(-n)`). -/
def recentN (n : ℕ) (l : List α) : List α := l.drop (l.length - n)

/-- Collision of a projectile with the recent trail (lines 676–685): any of
the last 4 trail samples strictly inside the circle of the fruit's radius. -/
def hitTest (trail : List (Point K)) (f : Fruit K) : Bool :=
  (recentN 4 trail).any fun p =>
    decide ((p.x - f.x) * (p.x - f.x) + (p.y - f.y) * (p.y - f.y) < f.radius * f.radius)

/-- The two debris halves `createDebris` pushes (lines 413–448): both start at
the fruit's position, inherit its velocity plus a push of magnitude 200 along
the perpendicular of the cut angle, in opposite directions, and are tagged
'left' and 'right'. -/
def debrisPair (kcos ksin : K → K) (kpi : K) (f : Fruit K) (cutAngle : K) :
    Debris K × Debris K :=
  let pushForce : K := 200
  let perpAngle := cutAngle - kpi / 2
  (⟨f.x, f.y, f.vx + kcos perpAngle * pushForce, f.vy + ksin perpAngle * pushForce,
    f.rotation, -3, f.emoji, f.radius, cutAngle, false, 1, 1⟩,
   ⟨f.x, f.y, f.vx + kcos (perpAngle + kpi) * pushForce,
    f.vy + ksin (perpAngle + kpi) * pushForce,
    f.rotation, 3, f.emoji, f.radius, cutAngle, true, 1, 1⟩)

/-- `createDebris(fruit, cutAngle)`: appends the complementary pair. -/
def createDebris (kcos ksin : K → K) (kpi : K) (f : Fruit K) (cutAngle : K) :
    List (Debris K) :=
  [(debrisPair kcos ksin kpi f cutAngle).1, (debrisPair kcos ksin kpi f cutAngle).2]

/-- The cut angle of the current gesture (lines 650–655): `atan2` of the
vector from the trail sample three-from-end to the newest sample when at
least 3 samples exist, else 0. -/
def cutAngleOf (m : MathOps K) (trail : List (Point K)) : K :=
  if h : 3 ≤ trail.length then
    let pHead := trail.getLast (by intro he; simp [he] at h)
    let pTail := trail.get ⟨trail.length - 3, by omega⟩
    m.katan2 (pHead.y - pTail.y) (pHead.x - pTail.x)
  else 0

/-- The per-tick inputs of the embedded loop body: clock and elapsed time,
whether the tracker reported a hand, the trail (after this frame's
ingest/decay), the random draw deciding wave vs single spawn, the fruit a
synchronous single spawn would push, and fruits pushed between frames by
previously scheduled `setTimeout` wave callbacks. -/
structure TickIn (K : Type) where
  now : K
  dt : K
  handPresent : Bool
  trail : List (Point K)
  waveRoll : K
  singleSpawn : Fruit K
  pending : List (Fruit K)
deriving DecidableEq, Repr

/-- The context a fruit's per-tick processing reads but never writes. -/
structure TickCtx (K : Type) where
  m : MathOps K
  height : K
  difficulty : K
  dt : K
  nowSec : K
  cutAngle : K
  trail : List (Point K)

/-- Processing of one fruit inside the loop body (lines 658–738): integrate
physics; discard when fallen below `height + FRUIT_LIFETIME_Y_OFFSET` while
moving downward; otherwise, when unsliced and hit by the trail, resolve as a
bomb hit (decrement lives, clear combo, emit the game-over report when lives
reach 0) or as a slice (count it, advance the combo, award points, create the
debris pair).  Returns the updated state, the emitted events, and the fruit
if it stays live. -/
def processFruit (c : TickCtx K) (f : Fruit K) (s : GState K) :
    GState K × List (GEvent K) × Option (Fruit K) :=
  let f := integrateFruit c.difficulty c.dt f
  if f.y > c.height + FRUIT_LIFETIME_Y_OFFSET ∧ f.vy > 0 then
    (s, [], none)
  else if f.sliced = false ∧ hitTest c.trail f = true then
    if f.type = FruitType.bomb then
      let s' : GState K :=
        { s with bombsHit := s.bombsHit + 1, lives := s.lives - 1, combo := 0 }
      (s', GEvent.bombHit f.id ::
            (if s'.lives ≤ 0 then [GEvent.report s'.score s'.slicedCount s'.bombsHit]
             else []), none)
    else
      let s1 : GState K :=
        { s with slicedCount := s.slicedCount + 1,
                 lastSliceTime := c.nowSec, combo := s.combo + 1 }
      let points : K := 10 + (if 1 < s1.combo then (s1.combo : K) * 5 else 0)
      let s2 : GState K :=
        { s1 with score := s1.score + points,
                  debris := s1.debris ++
                    createDebris c.m.kcos c.m.ksin c.m.kpi f c.cutAngle }
      (s2, [GEvent.slice f.id points], none)
  else (s, [], some f)

/-- The fruit iteration of lines 658–738: the JS loop walks the array from the
highest index down to 0, splicing as it goes, so the fruit pushed most
recently is processed first while survivors keep their array order. -/
def fruitLoop (c : TickCtx K) : List (Fruit K) → GState K →
    GState K × List (GEvent K) × List (Fruit K)
  | [], s => (s, [], [])
  | f :: rest, s =>
    let r₁ := fruitLoop c rest s
    let r₂ := processFruit c f r₁.1
    (r₂.1, r₁.2.1 ++ r₂.2.1, r₂.2.2.toList ++ r₁.2.2)

/-- What the spawn policy decided to launch this tick. -/
inductive SpawnKind where
  | wave
  | single
deriving DecidableEq, Repr

/-- The tick-level spawn policy (lines 630–642): accumulate elapsed time;
once it exceeds the current interval, fire a wave with probability 0.2 and
set the interval to `(BASE_SPAWN_INTERVAL + 1.5) / difficulty`, else fire a
single spawn and set it to `BASE_SPAWN_INTERVAL / difficulty`; reset the
elapsed counter to 0 on either spawn. -/
def spawnStep (waveRoll difficulty dt : K) (s : GState K) :
    GState K × Option SpawnKind :=
  let t := s.timeSinceSpawn + dt
  if s.spawnTimer < t then
    if waveRoll < 1/5 then
      ({ s with spawnTimer := (BASE_SPAWN_INTERVAL + 3/2) / difficulty,
                timeSinceSpawn := 0 }, some SpawnKind.wave)
    else
      ({ s with spawnTimer := BASE_SPAWN_INTERVAL / difficulty,
                timeSinceSpawn := 0 }, some SpawnKind.single)
  else ({ s with timeSinceSpawn := t }, none)

/-- One tick of the game-logic portion of `loop` (lines 596–738), the part
that reads or writes the verified session state.  Fruits pushed by interleaved
`setTimeout` callbacks (`inp.pending`) join the array before the gameplay
block runs; the block itself runs only while PLAYING and, when the
raise-hand gate is armed, only once a hand is present.  It then applies the
spawn policy, the combo timeout, and the fruit iteration, and flips the
session to GAME_OVER whenever a game-over report was emitted (the
`setGameState` call takes effect for subsequent frames). -/
def tick (m : MathOps K) (height : K) (inp : TickIn K) (s : GState K) :
    GState K × List (GEvent K) :=
  let s0 : GState K := { s with fruits := s.fruits ++ inp.pending }
  if s0.gameState = GameState.PLAYING then
    if s0.waitingForHand ∧ inp.handPresent = false then (s0, [])
    else
      let s1 : GState K := { s0 with waitingForHand := false }
      let d := difficultyOf s1.score
      let sp := spawnStep inp.waveRoll d inp.dt s1
      let s2 : GState K :=
        { sp.1 with fruits := sp.1.fruits ++
            (match sp.2 with
             | some SpawnKind.single => [inp.singleSpawn]
             | _ => []) }
      let s3 : GState K :=
        { s2 with combo :=
            if COMBO_WINDOW < inp.now / 1000 - s2.lastSliceTime then 0 else s2.combo }
      let c : TickCtx K :=
        ⟨m, height, d, inp.dt, inp.now / 1000, cutAngleOf m inp.trail, inp.trail⟩
      let r := fruitLoop c s3.fruits s3
      let s4 : GState K :=
        { r.1 with fruits := r.2.2,
                   gameState :=
                     if r.2.1.any isReportEv then GameState.GAME_OVER
                     else r.1.gameState }
      (s4, r.2.1)
  else (s0, [])

/-- `resetGame()` (lines 450–471): zero the score and counters, restore the
lives, clear every entity collection, rearm the spawn timer and the
raise-hand gate.  The combo tracker (`lastSliceTimeRef`, `currentComboRef`)
is not touched by the source reset.  Entering PLAYING triggers this reset. -/
def resetState (prev : GState K) : GState K :=
  { prev with
    score := 0
    lives := MAX_LIVES
    slicedCount := 0
    bombsHit := 0
    fruits := []
    debris := []
    timeSinceSpawn := 0
    spawnTimer := BASE_SPAWN_INTERVAL
    waitingForHand := true
    gameState := GameState.PLAYING }

/-- Run a sequence of ticks, accumulating the total number of game-over
reports emitted. -/
def runTicks (m : MathOps K) (height : K) :
    List (TickIn K) → GState K → GState K × ℕ
  | [], s => (s, 0)
  | inp :: rest, s =>
    let r := tick m height inp s
    let rr := runTicks m height rest r.1
    (rr.1, r.2.countP isReportEv + rr.2)

/-- `true` when every tick of the run registers at most one bomb hit. -/
def bombLimited (m : MathOps K) (height : K) :
    List (TickIn K) → GState K → Bool
  | [], _ => true
  | inp :: rest, s =>
    decide ((tick m height inp s).2.countP isBombEv ≤ 1) &&
      bombLimited m height rest (tick m height inp s).1

/-- The number of game-over reports a tick emits when it registers `k` bomb
hits starting from `L` lives: one report per hit that leaves lives at 0 or
below. -/
def reportCount (L : ℤ) (k : ℕ) : ℕ := (min (k : ℤ) (max 0 ((k : ℤ) + 1 - L))).toNat

/-- The number of wave spawns `spawnWave` schedules (line 379):
`3 + Math.floor(Math.random() * 3)`. -/
def spawnWaveCount [FloorRing K] (r : K) : ℤ := 3 + Int.floor (r * 3)

/-- The launch solve of `spawnFruit` (lines 328–343), as a function of the
screen size, the three random draws (start position, target offset, apex
height) and the difficulty multiplier, with the square root passed in. -/
structure Launch (K : Type) where
  startY : K
  startX : K
  targetX : K
  peakHeight : K
  gravity : K
  vy : K
  vx : K

def spawnLaunch (ksqrt : K → K) (width height r1 r2 r3 dMult : K) : Launch K :=
  let startY := height + 100
  let startX := width * (15/100) + r1 * (width * (7/10))
  let centerX := width / 2
  let direction : K := if startX < centerX then 1 else -1
  let targetX := centerX + r2 * 200 * direction
  let peakHeight := height * (15/100 + r3 * (2/10))
  let displacementY := startY - peakHeight
  let gravity := GRAVITY * (1 + (dMult - 1) * (1/10))
  let vy := -(ksqrt (2 * gravity * displacementY))
  let timeToPeak := -vy / gravity
  let vx := (targetX - startX) / timeToPeak
  ⟨startY, startX, targetX, peakHeight, gravity, vy, vx⟩

/-- The per-tick state the gameplay block sees after the pending-spawn
absorption, the raise-hand clear, the spawn policy and the combo timeout. -/
def preLoopState (inp : TickIn K) (s : GState K) : GState K :=
  let s1 : GState K := { s with fruits := s.fruits ++ inp.pending, waitingForHand := false }
  let sp := spawnStep inp.waveRoll (difficultyOf s.score) inp.dt s1
  let s2 : GState K :=
    { sp.1 with fruits := sp.1.fruits ++
        (match sp.2 with
         | some SpawnKind.single => [inp.singleSpawn]
         | _ => []) }
  { s2 with combo :=
      if COMBO_WINDOW < inp.now / 1000 - s2.lastSliceTime then 0 else s2.combo }

/-- The context the fruit iteration runs in for a given tick. -/
def loopCtx (m : MathOps K) (height : K) (inp : TickIn K) (s : GState K) : TickCtx K :=
  ⟨m, height, difficultyOf s.score, inp.dt, inp.now / 1000,
   cutAngleOf m inp.trail, inp.trail⟩

/-- An outcome event for a projectile (a slice or a bomb hit, as opposed to
the game-over report). -/
def isOutcomeEv {K : Type} : GEvent K → Bool
  | GEvent.slice _ _ => true
  | GEvent.bombHit _ => true
  | _ => false

/-- Insertion-order processing of the live projectiles, following the spec's
words: the oldest-spawned projectile is evaluated first and outcomes are
applied in that order.  Compared against `fruitLoop`, which embeds the
source's descending-index iteration. -/
def loopInOrder (c : TickCtx K) : List (Fruit K) → GState K →
    GState K × List (GEvent K) × List (Fruit K)
  | [], s => (s, [], [])
  | f :: rest, s =>
    let r₁ := processFruit c f s
    let r₂ := loopInOrder c rest r₁.1
    (r₂.1, r₁.2.1 ++ r₂.2.1, r₁.2.2.toList ++ r₂.2.2)

end Defs

/-- The rank/message pair the commentary service resolves to
(`SenseiFeedback` in types.ts). -/
structure SenseiFeedback where
  rank : String
  message : String
deriving DecidableEq, Repr

/-- The browser-stored configuration read by `getConfig()`. -/
structure GeminiConfig where
  apiKey : String
  baseUrl : String
deriving DecidableEq, Repr

/-- The outcome of the underlying `generateContent` call: it may throw, or
resolve with an optional text body (`response.text`). -/
inductive CallResult where
  | threw
  | ok (text : Option String)
deriving DecidableEq, Repr

/-- Fallback returned when no API key is configured. -/
def anonFallback : SenseiFeedback :=
  ⟨"Anonymous Ninja",
   "Please click the Settings icon to configure your Gemini API Key."⟩

/-- Fallback returned by the catch-all handler of `getSenseiFeedback`. -/
def roninFallback : SenseiFeedback :=
  ⟨"Disconnected Ronin",
   "Sensei cannot be reached. Check your API Key and Network/Proxy settings."⟩

/-- `getSenseiFeedback(score, sliced, bombs)` (geminiService.ts lines 12–49):
with no API key, a fixed settings prompt; otherwise the service call runs
inside a try/catch whose catch maps a thrown error, an empty response text
(re-thrown as an error) and an unparseable body all to the same fallback;
a parseable body is returned as-is.  The model call's outcome and the JSON
parser are parameters, so the function is total by construction. -/
def getSenseiFeedback (cfg : GeminiConfig) (_score _sliced _bombs : ℤ)
    (call : CallResult) (parse : String → Option SenseiFeedback) : SenseiFeedback :=
  if cfg.apiKey = "" then anonFallback
  else
    match call with
    | CallResult.threw => roninFallback
    | CallResult.ok none => roninFallback
    | CallResult.ok (some t) =>
      match parse t with
      | some fb => fb
      | none => roninFallback

/-!  ### Concrete instances used by witnesses and counterexamples -/

/-- Trivial math operations over `ℚ`; no verified property depends on the
values of the trigonometric functions. -/
def qOps : MathOps ℚ := ⟨fun _ => 0, fun _ => 0, fun _ _ => 0, 0⟩

/-- A motionless test projectile at the origin with radius 10. -/
def exFruit (i : ℚ) (t : FruitType) : Fruit ℚ :=
  ⟨i, 0, 0, 0, 0, 0, 0, t, 10, false, "red", "a"⟩

/-- A baseline `ℚ` session state builder. -/
def exState (lives : ℤ) (fruits : List (Fruit ℚ)) : GState ℚ :=
  ⟨0, lives, 0, 0, 0, 0, 0, 100, fruits, [], false, GameState.PLAYING⟩

/-- A baseline tick input: clock at 1000 ms, zero elapsed time, hand present,
one trail sample at the origin, no wave roll, inert spare spawn data. -/
def exIn (pending : List (Fruit ℚ)) : TickIn ℚ :=
  ⟨1000, 0, true, [⟨0, 0⟩], 1, exFruit 99 FruitType.apple, pending⟩

/-- Session state for the three-slice combo scenario: one live fruit, stale
combo clock, spawn far from firing. -/
def c3Start : GState ℚ :=
  ⟨0, 3, 0, 0, 0, 0, 0, 100, [exFruit 1 FruitType.apple], [], false, GameState.PLAYING⟩

/-- Tick inputs for the combo scenario at a given clock with given pending
fruits. -/
def c3In (now : ℚ) (pending : List (Fruit ℚ)) : TickIn ℚ :=
  ⟨now, 0, true, [⟨0, 0⟩], 1, exFruit 99 FruitType.apple, pending⟩

/-- A motionless test projectile over the reals. -/
def exRFruit (t : FruitType) : Fruit ℝ := ⟨1, 0, 0, 0, 0, 0, 0, t, 10, false, "red", "a"⟩

/-- A baseline real-valued session state. -/
def exRState : GState ℝ := ⟨0, 3, 0, 0, 0, 0, 0, 1, [], [], false, GameState.PLAYING⟩

/-!  ### Basic lemmas about the embedded operations -/

section Lemmas

variable {K : Type} [LinearOrderedField K]

@[simp] lemma integrateFruit_id (d dt : K) (f : Fruit K) :
    (integrateFruit d dt f).id = f.id := rfl

@[simp] lemma integrateFruit_type (d dt : K) (f : Fruit K) :
    (integrateFruit d dt f).type = f.type := rfl

@[simp] lemma integrateFruit_radius (d dt : K) (f : Fruit K) :
    (integrateFruit d dt f).radius = f.radius := rfl

@[simp] lemma integrateFruit_sliced (d dt : K) (f : Fruit K) :
    (integrateFruit d dt f).sliced = f.sliced := rfl

/-- The collision test succeeds exactly when some of the last 4 trail samples
lies strictly inside the hit circle. -/
lemma hitTest_iff (trail : List (Point K)) (f : Fruit K) :
    hitTest trail f = true ↔
      ∃ p ∈ recentN 4 trail,
        (p.x - f.x) ^ 2 + (p.y - f.y) ^ 2 < f.radius ^ 2 := by
  simp [hitTest, List.any_eq_true, pow_two]

/-- Off-screen removal case of `processFruit`: the fruit is dropped and the
session state is untouched. -/
lemma processFruit_offscreen (c : TickCtx K) (f : Fruit K) (s : GState K)
    (h : (integrateFruit c.difficulty c.dt f).y > c.height + FRUIT_LIFETIME_Y_OFFSET ∧
         (integrateFruit c.difficulty c.dt f).vy > 0) :
    processFruit c f s = (s, [], none) := by
  unfold processFruit
  rw [if_pos h]

/-- No-hit case of `processFruit`: the integrated fruit stays live and the
session state is untouched. -/
lemma processFruit_miss (c : TickCtx K) (f : Fruit K) (s : GState K)
    (hoff : ¬ ((integrateFruit c.difficulty c.dt f).y > c.height + FRUIT_LIFETIME_Y_OFFSET ∧
               (integrateFruit c.difficulty c.dt f).vy > 0))
    (hmiss : ¬ (f.sliced = false ∧ hitTest c.trail (integrateFruit c.difficulty c.dt f) = true)) :
    processFruit c f s = (s, [], some (integrateFruit c.difficulty c.dt f)) := by
  unfold processFruit
  rw [if_neg hoff, if_neg (by simpa using hmiss)]

/-- Bomb-hit case of `processFruit`. -/
lemma processFruit_bomb (c : TickCtx K) (f : Fruit K) (s : GState K)
    (hoff : ¬ ((integrateFruit c.difficulty c.dt f).y > c.height + FRUIT_LIFETIME_Y_OFFSET ∧
               (integrateFruit c.difficulty c.dt f).vy > 0))
    (hsl : f.sliced = false)
    (hhit : hitTest c.trail (integrateFruit c.difficulty c.dt f) = true)
    (hb : f.type = FruitType.bomb) :
    processFruit c f s =
      ({ s with bombsHit := s.bombsHit + 1, lives := s.lives - 1, combo := 0 },
       GEvent.bombHit f.id ::
         (if s.lives - 1 ≤ 0 then
            [GEvent.report s.score s.slicedCount (s.bombsHit + 1)]
          else []), none) := by
  unfold processFruit
  rw [if_neg hoff, if_pos (by simpa using ⟨hsl, hhit⟩), if_pos (by simpa using hb)]
  simp

/-- Slice case of `processFruit`. -/
lemma processFruit_slice (c : TickCtx K) (f : Fruit K) (s : GState K)
    (hoff : ¬ ((integrateFruit c.difficulty c.dt f).y > c.height + FRUIT_LIFETIME_Y_OFFSET ∧
               (integrateFruit c.difficulty c.dt f).vy > 0))
    (hsl : f.sliced = false)
    (hhit : hitTest c.trail (integrateFruit c.difficulty c.dt f) = true)
    (hb : f.type ≠ FruitType.bomb) :
    processFruit c f s =
      ({ s with slicedCount := s.slicedCount + 1,
                lastSliceTime := c.nowSec, combo := s.combo + 1,
                score := s.score +
                  (10 + if 1 < s.combo + 1 then ((s.combo + 1 : ℕ) : K) * 5 else 0),
                debris := s.debris ++
                  createDebris c.m.kcos c.m.ksin c.m.kpi
                    (integrateFruit c.difficulty c.dt f) c.cutAngle },
       [GEvent.slice f.id
          (10 + if 1 < s.combo + 1 then ((s.combo + 1 : ℕ) : K) * 5 else 0)], none) := by
  unfold processFruit
  rw [if_neg hoff, if_pos (by simpa using ⟨hsl, hhit⟩), if_neg (by simpa using hb)]
  rfl

lemma countP_pos_iff_any (l : List α) (p : α → Bool) :
    0 < l.countP p ↔ l.any p = true := by
  rw [List.countP_pos_iff, List.any_eq_true]

@[simp] lemma reportCount_zero (L : ℤ) : reportCount L 0 = 0 := by
  unfold reportCount; omega

lemma reportCount_succ (L : ℤ) (k : ℕ) :
    reportCount L (k + 1) =
      reportCount L k + (if L - (k : ℤ) - 1 ≤ 0 then 1 else 0) := by
  unfold reportCount
  split <;> omega

@[simp] lemma spawnStep_lives (w d dt : K) (s : GState K) :
    (spawnStep w d dt s).1.lives = s.lives := by
  unfold spawnStep
  dsimp only
  split <;> (try split) <;> rfl

@[simp] lemma spawnStep_gameState (w d dt : K) (s : GState K) :
    (spawnStep w d dt s).1.gameState = s.gameState := by
  unfold spawnStep
  dsimp only
  split <;> (try split) <;> rfl

@[simp] lemma spawnStep_combo (w d dt : K) (s : GState K) :
    (spawnStep w d dt s).1.combo = s.combo := by
  unfold spawnStep
  dsimp only
  split <;> (try split) <;> rfl

@[simp] lemma spawnStep_lastSliceTime (w d dt : K) (s : GState K) :
    (spawnStep w d dt s).1.lastSliceTime = s.lastSliceTime := by
  unfold spawnStep
  dsimp only
  split <;> (try split) <;> rfl

@[simp] lemma spawnStep_score (w d dt : K) (s : GState K) :
    (spawnStep w d dt s).1.score = s.score := by
  unfold spawnStep
  dsimp only
  split <;> (try split) <;> rfl

@[simp] lemma spawnStep_fruits (w d dt : K) (s : GState K) :
    (spawnStep w d dt s).1.fruits = s.fruits := by
  unfold spawnStep
  dsimp only
  split <;> (try split) <;> rfl

@[simp] lemma spawnStep_waitingForHand (w d dt : K) (s : GState K) :
    (spawnStep w d dt s).1.waitingForHand = s.waitingForHand := by
  unfold spawnStep
  dsimp only
  split <;> (try split) <;> rfl

/-- Lives, report counting and session-state preservation through the fruit
iteration: lives drop by exactly the number of bomb hits registered, and the
game-over report fires once for every bomb hit that leaves lives at 0 or
below. -/
lemma fruitLoop_invariant (c : TickCtx K) (fruits : List (Fruit K)) (s : GState K) :
    (fruitLoop c fruits s).1.lives =
        s.lives - ((fruitLoop c fruits s).2.1.countP isBombEv : ℤ) ∧
    (fruitLoop c fruits s).2.1.countP isReportEv =
        reportCount s.lives ((fruitLoop c fruits s).2.1.countP isBombEv) ∧
    (fruitLoop c fruits s).1.gameState = s.gameState := by
  induction fruits generalizing s with
  | nil => simp [fruitLoop]
  | cons f rest ih =>
    obtain ⟨ih1, ih2, ih3⟩ := ih s
    simp only [fruitLoop]
    by_cases h1 : (integrateFruit c.difficulty c.dt f).y > c.height + FRUIT_LIFETIME_Y_OFFSET ∧
        (integrateFruit c.difficulty c.dt f).vy > 0
    · rw [processFruit_offscreen c f _ h1]
      simpa using ⟨ih1, ih2, ih3⟩
    · by_cases h2 : f.sliced = false ∧
          hitTest c.trail (integrateFruit c.difficulty c.dt f) = true
      · by_cases h3 : f.type = FruitType.bomb
        · rw [processFruit_bomb c f _ h1 h2.1 h2.2 h3]
          by_cases h4 : (fruitLoop c rest s).1.lives - 1 ≤ 0
          · rw [if_pos h4]
            refine ⟨?_, ?_, by simpa using ih3⟩
            · simp [List.countP_append, List.countP_cons, isBombEv]
              omega
            · simp only [List.countP_append, List.countP_cons, List.countP_nil,
                isBombEv, isReportEv]
              simp only [Bool.false_eq_true, if_true, if_false, ite_true, ite_false]
              unfold reportCount at ih2 ⊢
              omega
          · rw [if_neg h4]
            refine ⟨?_, ?_, by simpa using ih3⟩
            · simp [List.countP_append, List.countP_cons, isBombEv]
              omega
            · simp only [List.countP_append, List.countP_cons, List.countP_nil,
                isBombEv, isReportEv]
              simp only [Bool.false_eq_true, if_true, if_false, ite_true, ite_false]
              unfold reportCount at ih2 ⊢
              omega
        · rw [processFruit_slice c f _ h1 h2.1 h2.2 h3]
          simp only [List.countP_append, List.countP_cons, List.countP_nil,
            isBombEv, isReportEv]
          simpa using ⟨ih1, ih2, ih3⟩
      · rw [processFruit_miss c f _ h1 h2]
        simpa using ⟨ih1, ih2, ih3⟩

/-- A tick outside the PLAYING state only absorbs fruits pushed by stray
timer callbacks; no gameplay runs and no events are emitted. -/
lemma tick_not_playing (m : MathOps K) (height : K) (inp : TickIn K) (s : GState K)
    (h : s.gameState ≠ GameState.PLAYING) :
    tick m height inp s = ({ s with fruits := s.fruits ++ inp.pending }, []) := by
  unfold tick
  rw [if_neg h]

/-- A tick in the raise-hand sub-state with no hand present halts the game
update (after absorbing pending spawns). -/
lemma tick_waiting (m : MathOps K) (height : K) (inp : TickIn K) (s : GState K)
    (hgs : s.gameState = GameState.PLAYING)
    (hw : s.waitingForHand = true) (hh : inp.handPresent = false) :
    tick m height inp s = ({ s with fruits := s.fruits ++ inp.pending }, []) := by
  unfold tick
  rw [if_pos hgs, if_pos (by simp [hw, hh])]

/-- Unfolding of an active PLAYING tick into the pre-loop state and the
fruit iteration. -/
lemma tick_active_eq (m : MathOps K) (height : K) (inp : TickIn K) (s : GState K)
    (hgs : s.gameState = GameState.PLAYING)
    (hact : ¬ (s.waitingForHand = true ∧ inp.handPresent = false)) :
    tick m height inp s =
      (let r := fruitLoop (loopCtx m height inp s) (preLoopState inp s).fruits
                  (preLoopState inp s)
       ({ r.1 with fruits := r.2.2,
                   gameState :=
                     if r.2.1.any isReportEv then GameState.GAME_OVER
                     else r.1.gameState }, r.2.1)) := by
  unfold tick preLoopState loopCtx
  rw [if_pos hgs, if_neg hact]

@[simp] lemma preLoopState_lives (inp : TickIn K) (s : GState K) :
    (preLoopState inp s).lives = s.lives := by
  unfold preLoopState
  simp

@[simp] lemma preLoopState_gameState (inp : TickIn K) (s : GState K) :
    (preLoopState inp s).gameState = s.gameState := by
  unfold preLoopState
  simp

@[simp] lemma preLoopState_score (inp : TickIn K) (s : GState K) :
    (preLoopState inp s).score = s.score := by
  unfold preLoopState
  simp

@[simp] lemma preLoopState_lastSliceTime (inp : TickIn K) (s : GState K) :
    (preLoopState inp s).lastSliceTime = s.lastSliceTime := by
  unfold preLoopState
  simp

@[simp] lemma preLoopState_waitingForHand (inp : TickIn K) (s : GState K) :
    (preLoopState inp s).waitingForHand = false := by
  unfold preLoopState
  simp

/-- Lives and report accounting over a whole tick, together with the
session-state transition: lives drop by the number of bomb hits, the report
fires `reportCount` times, and the state flips to GAME_OVER exactly when at
least one report fired. -/
lemma tick_invariant (m : MathOps K) (height : K) (inp : TickIn K) (s : GState K) :
    (tick m height inp s).1.lives =
        s.lives - ((tick m height inp s).2.countP isBombEv : ℤ) ∧
    (tick m height inp s).2.countP isReportEv =
        reportCount s.lives ((tick m height inp s).2.countP isBombEv) ∧
    (tick m height inp s).1.gameState =
        (if 0 < (tick m height inp s).2.countP isReportEv then GameState.GAME_OVER
         else s.gameState) := by
  by_cases hgs : s.gameState = GameState.PLAYING
  · by_cases hwait : s.waitingForHand = true ∧ inp.handPresent = false
    · rw [tick_waiting m height inp s hgs hwait.1 hwait.2]
      simp [hgs]
    · rw [tick_active_eq m height inp s hgs hwait]
      obtain ⟨k1, k2, k3⟩ := fruitLoop_invariant (loopCtx m height inp s)
        (preLoopState inp s).fruits (preLoopState inp s)
      simp only [preLoopState_lives, preLoopState_gameState] at k1 k2 k3
      refine ⟨by simpa using k1, by simpa using k2, ?_⟩
      by_cases hany :
          (fruitLoop (loopCtx m height inp s) (preLoopState inp s).fruits
            (preLoopState inp s)).2.1.any isReportEv = true
      · have hpos : 0 < (fruitLoop (loopCtx m height inp s) (preLoopState inp s).fruits
            (preLoopState inp s)).2.1.countP isReportEv :=
          (countP_pos_iff_any _ _).mpr hany
        simp [hany, hpos]
      · have hzero : ¬ (0 < (fruitLoop (loopCtx m height inp s) (preLoopState inp s).fruits
            (preLoopState inp s)).2.1.countP isReportEv) := by
          rw [countP_pos_iff_any]
          exact hany
        simp [hany, hzero, k3, hgs]
  · rw [tick_not_playing m height inp s hgs]
    simp

/-- Session-level safety: over any bomb-limited run (at most one bomb hit
per tick), a GAME_OVER session stays terminal, and a PLAYING session with
lives in [1, MAX_LIVES] keeps lives in [0, MAX_LIVES], reports game over at
most once, and does so exactly when it ends up in GAME_OVER with 0 lives. -/
lemma runTicks_session (m : MathOps K) (height : K) (inps : List (TickIn K)) :
    ∀ s : GState K, bombLimited m height inps s = true →
      ((s.gameState = GameState.GAME_OVER →
          (runTicks m height inps s).1.gameState = GameState.GAME_OVER ∧
          (runTicks m height inps s).1.lives = s.lives ∧
          (runTicks m height inps s).2 = 0) ∧
       (s.gameState = GameState.PLAYING → 1 ≤ s.lives → s.lives ≤ MAX_LIVES →
          0 ≤ (runTicks m height inps s).1.lives ∧
          (runTicks m height inps s).1.lives ≤ MAX_LIVES ∧
          (runTicks m height inps s).2 ≤ 1 ∧
          ((runTicks m height inps s).2 = 1 ↔
            (runTicks m height inps s).1.gameState = GameState.GAME_OVER) ∧
          ((runTicks m height inps s).1.gameState = GameState.GAME_OVER →
            (runTicks m height inps s).1.lives = 0))) := by
  induction inps with
  | nil =>
    intro s _
    constructor
    · intro h
      exact ⟨h, rfl, rfl⟩
    · intro hgs h1 h3
      simp only [runTicks]
      refine ⟨by omega, by omega, by omega, by simp [hgs], ?_⟩
      intro hGO
      exact absurd hGO (by simp [hgs])
  | cons inp rest ih =>
    intro s hb
    rw [show bombLimited m height (inp :: rest) s =
          (decide ((tick m height inp s).2.countP isBombEv ≤ 1) &&
            bombLimited m height rest (tick m height inp s).1) from rfl,
        Bool.and_eq_true, decide_eq_true_eq] at hb
    have hb' : bombLimited m height rest (tick m height inp s).1 = true := hb.2
    have hk : (tick m height inp s).2.countP isBombEv ≤ 1 := hb.1
    obtain ⟨t1, t2, t3⟩ := tick_invariant m height inp s
    have IH := ih (tick m height inp s).1 hb'
    simp only [runTicks]
    constructor
    · intro hGO
      have hnp : (tick m height inp s).2 = [] := by
        rw [tick_not_playing m height inp s (by simp [hGO])]
      have hgs' : (tick m height inp s).1.gameState = GameState.GAME_OVER := by
        rw [t3, hnp]
        simpa using hGO
      have hlv : (tick m height inp s).1.lives = s.lives := by
        rw [t1, hnp]
        simp
      obtain ⟨d1, d2, d3⟩ := IH.1 hgs'
      refine ⟨d1, by omega, by simp [hnp, d3]⟩
    · intro hgs h1 h3
      rcases Nat.le_one_iff_eq_zero_or_eq_one.mp hk with hk0 | hk1
      · have hn0 : (tick m height inp s).2.countP isReportEv = 0 := by
          rw [t2, hk0]
          simp
        have hgs' : (tick m height inp s).1.gameState = GameState.PLAYING := by
          rw [t3, hn0]
          simpa using hgs
        have hlv : (tick m height inp s).1.lives = s.lives := by
          rw [t1, hk0]
          simp
        obtain ⟨c1, c2, c3, c4, c5⟩ := IH.2 hgs' (by omega) (by omega)
        refine ⟨c1, c2, by simpa [hn0] using c3, by simpa [hn0] using c4, c5⟩
      · by_cases hL : s.lives = 1
        · have hn1 : (tick m height inp s).2.countP isReportEv = 1 := by
            rw [t2, hk1, hL]
            unfold reportCount
            omega
          have hgs' : (tick m height inp s).1.gameState = GameState.GAME_OVER := by
            rw [t3, hn1]
            simp
          have hlv : (tick m height inp s).1.lives = 0 := by
            rw [t1, hk1]
            omega
          obtain ⟨d1, d2, d3⟩ := IH.1 hgs'
          refine ⟨by omega, by omega, by omega, ?_, by omega⟩
          constructor
          · intro _
            exact d1
          · intro _
            omega
        · have hn0 : (tick m height inp s).2.countP isReportEv = 0 := by
            rw [t2, hk1]
            unfold reportCount
            omega
          have hgs' : (tick m height inp s).1.gameState = GameState.PLAYING := by
            rw [t3, hn0]
            simpa using hgs
          have hlv : (tick m height inp s).1.lives = s.lives - 1 := by
            rw [t1, hk1]
            simp
          obtain ⟨c1, c2, c3, c4, c5⟩ := IH.2 hgs' (by omega) (by omega)
          refine ⟨c1, c2, by simpa [hn0] using c3, by simpa [hn0] using c4, c5⟩

lemma loopInOrder_append (c : TickCtx K) (l₁ l₂ : List (Fruit K)) (s : GState K) :
    loopInOrder c (l₁ ++ l₂) s =
      ((loopInOrder c l₂ (loopInOrder c l₁ s).1).1,
       (loopInOrder c l₁ s).2.1 ++ (loopInOrder c l₂ (loopInOrder c l₁ s).1).2.1,
       (loopInOrder c l₁ s).2.2 ++ (loopInOrder c l₂ (loopInOrder c l₁ s).1).2.2) := by
  induction l₁ generalizing s with
  | nil => simp [loopInOrder]
  | cons f rest ih =>
    simp only [List.cons_append, loopInOrder, List.append_eq]
    rw [ih]
    simp [List.append_assoc]

lemma option_toList_reverse {α : Type} (o : Option α) : o.toList.reverse = o.toList := by
  cases o <;> rfl

/-- The source's descending-index iteration is insertion-order processing of
the reversed list (newest-spawned first), with survivors kept in array
order. -/
lemma fruitLoop_eq_loopInOrder_reverse (c : TickCtx K) (fruits : List (Fruit K))
    (s : GState K) :
    fruitLoop c fruits s =
      ((loopInOrder c fruits.reverse s).1,
       (loopInOrder c fruits.reverse s).2.1,
       (loopInOrder c fruits.reverse s).2.2.reverse) := by
  induction fruits generalizing s with
  | nil => simp [fruitLoop, loopInOrder]
  | cons f rest ih =>
    simp only [fruitLoop, ih, List.reverse_cons, loopInOrder_append]
    simp [loopInOrder, option_toList_reverse]

lemma apple_eq_bomb_iff_false : (FruitType.apple = FruitType.bomb) = False := by
  simp

/-- Each projectile contributes at most one outcome event per tick. -/
lemma processFruit_outcome_le_one (c : TickCtx K) (f : Fruit K) (s : GState K) :
    ((processFruit c f s).2.1.countP isOutcomeEv) ≤ 1 := by
  unfold processFruit
  dsimp only
  split_ifs <;> simp [isOutcomeEv]

/-- When the spawn policy does not fire, the pre-loop state only accumulates
elapsed time (and applies the combo timeout and raise-hand clear). -/
lemma preLoopState_no_spawn (inp : TickIn K) (s : GState K)
    (hsp : ¬ (s.spawnTimer < s.timeSinceSpawn + inp.dt)) :
    preLoopState inp s =
      { s with fruits := s.fruits ++ inp.pending, waitingForHand := false,
               timeSinceSpawn := s.timeSinceSpawn + inp.dt,
               combo := (if COMBO_WINDOW < inp.now / 1000 - s.lastSliceTime then 0
                         else s.combo) } := by
  unfold preLoopState spawnStep
  dsimp only
  rw [if_neg hsp]
  simp

/-- An active tick with no live fruits and no spawn only advances the spawn
clock and applies the combo timeout. -/
lemma tick_no_fruit (m : MathOps K) (height : K) (inp : TickIn K) (s : GState K)
    (hgs : s.gameState = GameState.PLAYING)
    (hw : s.waitingForHand = false)
    (hfr : s.fruits ++ inp.pending = [])
    (hsp : ¬ (s.spawnTimer < s.timeSinceSpawn + inp.dt)) :
    tick m height inp s =
      ({ s with fruits := [], waitingForHand := false,
                timeSinceSpawn := s.timeSinceSpawn + inp.dt,
                combo := (if COMBO_WINDOW < inp.now / 1000 - s.lastSliceTime then 0
                          else s.combo) }, []) := by
  rw [tick_active_eq m height inp s hgs (by simp [hw]),
    preLoopState_no_spawn inp s hsp]
  simp only [hfr]
  simp [fruitLoop]

/-- An active tick whose effective fruit list is a single sliceable fruit hit
by the trail: the fruit is consumed, the combo advances from its
post-timeout value `c0`, the slice time is stamped and combo-scaled points
are scored. -/
lemma tick_single_slice (m : MathOps K) (height : K) (inp : TickIn K) (s : GState K)
    (f : Fruit K) (c0 : ℕ)
    (hgs : s.gameState = GameState.PLAYING)
    (hw : s.waitingForHand = false)
    (hfr : s.fruits ++ inp.pending = [f])
    (hsp : ¬ (s.spawnTimer < s.timeSinceSpawn + inp.dt))
    (hc0 : (if COMBO_WINDOW < inp.now / 1000 - s.lastSliceTime then 0 else s.combo) = c0)
    (hsl : f.sliced = false)
    (hnb : f.type ≠ FruitType.bomb)
    (hoff : ¬ ((integrateFruit (difficultyOf s.score) inp.dt f).y >
                  height + FRUIT_LIFETIME_Y_OFFSET ∧
               (integrateFruit (difficultyOf s.score) inp.dt f).vy > 0))
    (hhit : hitTest inp.trail (integrateFruit (difficultyOf s.score) inp.dt f) = true) :
    tick m height inp s =
      ({ s with fruits := [], waitingForHand := false,
                timeSinceSpawn := s.timeSinceSpawn + inp.dt,
                combo := c0 + 1, lastSliceTime := inp.now / 1000,
                slicedCount := s.slicedCount + 1,
                score := s.score +
                  (10 + if 1 < c0 + 1 then ((c0 + 1 : ℕ) : K) * 5 else 0),
                debris := s.debris ++ createDebris m.kcos m.ksin m.kpi
                  (integrateFruit (difficultyOf s.score) inp.dt f)
                  (cutAngleOf m inp.trail) },
       [GEvent.slice f.id (10 + if 1 < c0 + 1 then ((c0 + 1 : ℕ) : K) * 5 else 0)]) := by
  rw [tick_active_eq m height inp s hgs (by simp [hw]),
    preLoopState_no_spawn inp s hsp]
  simp only [hfr, hc0, fruitLoop]
  rw [processFruit_slice (loopCtx m height inp s) f _ hoff hsl hhit hnb]
  simp [isReportEv, loopCtx]

end Lemmas

/-!  ### Claim theorems -/

section Claims

variable {K : Type} [LinearOrderedField K]

/-- C5 (amended): when the spawn policy fires, a wave sets the interval to
`(BASE_SPAWN_INTERVAL + 1.5) / difficulty` and a single spawn to
`BASE_SPAWN_INTERVAL / difficulty`; the elapsed counter resets to 0 in both
cases; and at every positive difficulty the single-spawn interval is strictly
SHORTER than the wave interval (the source gives waves the longer cooldown,
not the shorter one the claim states). -/
theorem C5_spawn_policy (waveRoll d dt : K) (s : GState K)
    (hd : 0 < d) (hfire : s.spawnTimer < s.timeSinceSpawn + dt) :
    (waveRoll < 1/5 →
        spawnStep waveRoll d dt s =
          ({ s with spawnTimer := (BASE_SPAWN_INTERVAL + 3/2) / d, timeSinceSpawn := 0 },
           some SpawnKind.wave)) ∧
    (¬ waveRoll < 1/5 →
        spawnStep waveRoll d dt s =
          ({ s with spawnTimer := BASE_SPAWN_INTERVAL / d, timeSinceSpawn := 0 },
           some SpawnKind.single)) ∧
    BASE_SPAWN_INTERVAL / d < (BASE_SPAWN_INTERVAL + 3/2) / d := by
  refine ⟨?_, ?_, ?_⟩
  · intro hw
    unfold spawnStep
    dsimp only
    rw [if_pos hfire, if_pos hw]
  · intro hw
    unfold spawnStep
    dsimp only
    rw [if_pos hfire, if_neg hw]
  · have hlt : BASE_SPAWN_INTERVAL < BASE_SPAWN_INTERVAL + (3:K)/2 :=
      lt_add_of_pos_right _ (by norm_num)
    exact (div_lt_div_iff₀ hd hd).mpr (mul_lt_mul_of_pos_right hlt hd)

/-- C5 counterexample: at difficulty 1 the interval set after a wave spawn is
23/10 while the interval set after a single spawn is 4/5; the wave interval
is not shorter, refuting the claim as stated. -/
theorem C5_counterexample :
    (spawnStep (0:ℚ) (difficultyOf 0) 0
        { exState 3 [] with timeSinceSpawn := 1, spawnTimer := 1/2 }).1.spawnTimer = 23/10 ∧
    (spawnStep (1:ℚ) (difficultyOf 0) 0
        { exState 3 [] with timeSinceSpawn := 1, spawnTimer := 1/2 }).1.spawnTimer = 4/5 ∧
    ¬ ((spawnStep (0:ℚ) (difficultyOf 0) 0
          { exState 3 [] with timeSinceSpawn := 1, spawnTimer := 1/2 }).1.spawnTimer <
        (spawnStep (1:ℚ) (difficultyOf 0) 0
          { exState 3 [] with timeSinceSpawn := 1, spawnTimer := 1/2 }).1.spawnTimer) := by
  norm_num [spawnStep, exState, difficultyOf, BASE_SPAWN_INTERVAL]

/-- C5 witness for the amended statement, at difficulty 1 with the policy
firing. -/
theorem C5_spawn_policy_witness :
    ((0:ℚ) < 1/5 →
        spawnStep (0:ℚ) 1 0 { exState 3 [] with timeSinceSpawn := 1, spawnTimer := 1/2 } =
          ({ { exState 3 [] with timeSinceSpawn := 1, spawnTimer := 1/2 } with
              spawnTimer := (BASE_SPAWN_INTERVAL + 3/2) / 1, timeSinceSpawn := 0 },
           some SpawnKind.wave)) ∧
    (¬ (0:ℚ) < 1/5 →
        spawnStep (0:ℚ) 1 0 { exState 3 [] with timeSinceSpawn := 1, spawnTimer := 1/2 } =
          ({ { exState 3 [] with timeSinceSpawn := 1, spawnTimer := 1/2 } with
              spawnTimer := BASE_SPAWN_INTERVAL / 1, timeSinceSpawn := 0 },
           some SpawnKind.single)) ∧
    BASE_SPAWN_INTERVAL / (1:ℚ) < (BASE_SPAWN_INTERVAL + 3/2) / 1 :=
  C5_spawn_policy 0 1 0 { exState 3 [] with timeSinceSpawn := 1, spawnTimer := 1/2 }
    (by norm_num) (by norm_num [exState])

/-- C6: the code schedules `3 + Math.floor(rand * 3)` spawns per wave,
which for every draw in [0, 1) lies in {3, 4, 5} and is never 6 — the
source's own comment (and the spec) promise 3–6. -/
theorem C6_wave_count [FloorRing K] (r : K) (h0 : 0 ≤ r) (h1 : r < 1) :
    (3 ≤ spawnWaveCount r ∧ spawnWaveCount r ≤ 5) ∧
    spawnWaveCount r ≠ 6 ∧
    spawnWaveCount (0 : K) = 3 ∧ spawnWaveCount (1/3 : K) = 4 ∧
    spawnWaveCount (2/3 : K) = 5 := by
  have ha : (0:ℤ) ≤ Int.floor (r * 3) := Int.floor_nonneg.mpr (by positivity)
  have hb : Int.floor (r * 3) < 3 := by
    apply Int.floor_lt.mpr
    push_cast
    nlinarith
  have e0 : spawnWaveCount (0 : K) = 3 := by
    rw [spawnWaveCount, zero_mul, Int.floor_zero]
    norm_num
  have e1 : spawnWaveCount (1/3 : K) = 4 := by
    rw [spawnWaveCount, show ((1:K)/3) * 3 = 1 by norm_num, Int.floor_one]
    norm_num
  have e2 : spawnWaveCount (2/3 : K) = 5 := by
    rw [spawnWaveCount, show ((2:K)/3) * 3 = ((2:ℤ):K) by push_cast; norm_num,
      Int.floor_intCast]
    norm_num
  refine ⟨⟨?_, ?_⟩, ?_, e0, e1, e2⟩ <;>
    · unfold spawnWaveCount
      omega

/-- C6 witness: a concrete draw. -/
theorem C6_wave_count_witness :
    (3 ≤ spawnWaveCount (1/2 : ℚ) ∧ spawnWaveCount (1/2 : ℚ) ≤ 5) ∧
    spawnWaveCount (1/2 : ℚ) ≠ 6 ∧
    spawnWaveCount (0 : ℚ) = 3 ∧ spawnWaveCount (1/3 : ℚ) = 4 ∧
    spawnWaveCount (2/3 : ℚ) = 5 :=
  C6_wave_count (1/2 : ℚ) (by norm_num) (by norm_num)

/-- C7: the launch solve round-trips — with `vy0 = -sqrt(2 g (startY - peak))`
the continuous arc's apex `startY - vy0^2 / (2 g)` equals the randomized peak
height exactly, and that peak lies strictly inside the visible play area
(between 0 and the screen height) at every difficulty at least 1. -/
theorem C7_launch_apex (width height r1 r2 r3 dMult : ℝ)
    (hh : 0 < height) (h0 : 0 ≤ r3) (h1 : r3 < 1) (hd : 1 ≤ dMult) :
    (spawnLaunch Real.sqrt width height r1 r2 r3 dMult).startY -
        (spawnLaunch Real.sqrt width height r1 r2 r3 dMult).vy ^ 2 /
          (2 * (spawnLaunch Real.sqrt width height r1 r2 r3 dMult).gravity) =
      (spawnLaunch Real.sqrt width height r1 r2 r3 dMult).peakHeight ∧
    0 < (spawnLaunch Real.sqrt width height r1 r2 r3 dMult).peakHeight ∧
    (spawnLaunch Real.sqrt width height r1 r2 r3 dMult).peakHeight < height := by
  unfold spawnLaunch GRAVITY
  dsimp only
  have hgpos : (0:ℝ) < 1500 * (1 + (dMult - 1) * (1/10)) := by nlinarith
  have hpk0 : (0:ℝ) < height * (15/100 + r3 * (2/10)) := by nlinarith
  have hpkh : height * (15/100 + r3 * (2/10)) < height := by nlinarith
  have hdisp : (0:ℝ) ≤ 2 * (1500 * (1 + (dMult - 1) * (1/10))) *
      (height + 100 - height * (15/100 + r3 * (2/10))) := by nlinarith
  refine ⟨?_, hpk0, hpkh⟩
  have hgne : (2:ℝ) * (1500 * (1 + (dMult - 1) * (1/10))) ≠ 0 := by positivity
  rw [neg_sq, Real.sq_sqrt hdisp, mul_div_cancel_left₀ _ hgne]
  ring

/-- C7 witness at a concrete screen and draws. -/
theorem C7_launch_apex_witness :
    (spawnLaunch Real.sqrt 1000 720 0 0 (1/2) 1).startY -
        (spawnLaunch Real.sqrt 1000 720 0 0 (1/2) 1).vy ^ 2 /
          (2 * (spawnLaunch Real.sqrt 1000 720 0 0 (1/2) 1).gravity) =
      (spawnLaunch Real.sqrt 1000 720 0 0 (1/2) 1).peakHeight ∧
    0 < (spawnLaunch Real.sqrt 1000 720 0 0 (1/2) 1).peakHeight ∧
    (spawnLaunch Real.sqrt 1000 720 0 0 (1/2) 1).peakHeight < 720 :=
  C7_launch_apex 1000 720 0 0 (1/2) 1 (by norm_num) (by norm_num) (by norm_num)
    (by norm_num)

/-- C8: a projectile whose post-integration position is below
`height + FRUIT_LIFETIME_Y_OFFSET` while moving downward is removed from the
live set with the session state untouched: no score, lives or counter
changes. -/
theorem C8_offscreen_removal (c : TickCtx K) (f : Fruit K) (s : GState K)
    (hoff : (integrateFruit c.difficulty c.dt f).y > c.height + FRUIT_LIFETIME_Y_OFFSET)
    (hvy : (integrateFruit c.difficulty c.dt f).vy > 0) :
    processFruit c f s = (s, [], none) :=
  processFruit_offscreen c f s ⟨hoff, hvy⟩

/-- C8 witness: a concrete fallen projectile. -/
theorem C8_offscreen_removal_witness :
    processFruit (⟨qOps, 100, 1, 0, 0, 0, []⟩ : TickCtx ℚ)
        { exFruit 1 FruitType.apple with y := 1000, vy := 5 } (exState 3 []) =
      (exState 3 [], [], none) :=
  C8_offscreen_removal _ _ _
    (by norm_num [integrateFruit, exFruit, FRUIT_LIFETIME_Y_OFFSET, GRAVITY])
    (by norm_num [integrateFruit, exFruit, GRAVITY])

/-- C9: the commentary evaluation is total — it always resolves to a
rank/message pair: a missing API key yields the settings prompt, a thrown
call, an empty response text and an unparseable body all yield the fixed
fallback, and a parseable body is returned as-is, so no failure escapes to
the caller. -/
theorem C9_feedback_total (cfg : GeminiConfig) (score sliced bombs : ℤ)
    (call : CallResult) (parse : String → Option SenseiFeedback) :
    (cfg.apiKey = "" →
        getSenseiFeedback cfg score sliced bombs call parse = anonFallback) ∧
    (cfg.apiKey ≠ "" → call = CallResult.threw →
        getSenseiFeedback cfg score sliced bombs call parse = roninFallback) ∧
    (cfg.apiKey ≠ "" → call = CallResult.ok none →
        getSenseiFeedback cfg score sliced bombs call parse = roninFallback) ∧
    (∀ t, cfg.apiKey ≠ "" → call = CallResult.ok (some t) → parse t = none →
        getSenseiFeedback cfg score sliced bombs call parse = roninFallback) ∧
    (∀ t fb, cfg.apiKey ≠ "" → call = CallResult.ok (some t) → parse t = some fb →
        getSenseiFeedback cfg score sliced bombs call parse = fb) := by
  unfold getSenseiFeedback
  refine ⟨?_, ?_, ?_, ?_, ?_⟩
  · intro h
    rw [if_pos h]
  · intro h hc
    rw [if_neg h, hc]
  · intro h hc
    rw [if_neg h, hc]
  · intro t h hc hp
    rw [if_neg h, hc]
    simp [hp]
  · intro t fb h hc hp
    rw [if_neg h, hc]
    simp [hp]

/-- C9 witness: all five cases at concrete inputs. -/
theorem C9_feedback_total_witness :
    getSenseiFeedback ⟨"", ""⟩ 1 2 3 CallResult.threw (fun _ => none) = anonFallback ∧
    getSenseiFeedback ⟨"k", ""⟩ 1 2 3 CallResult.threw (fun _ => none) = roninFallback ∧
    getSenseiFeedback ⟨"k", ""⟩ 1 2 3 (CallResult.ok none) (fun _ => none) = roninFallback ∧
    getSenseiFeedback ⟨"k", ""⟩ 1 2 3 (CallResult.ok (some "x")) (fun _ => none) =
      roninFallback ∧
    getSenseiFeedback ⟨"k", ""⟩ 1 2 3 (CallResult.ok (some "x"))
        (fun _ => some ⟨"Ninja", "ok"⟩) = ⟨"Ninja", "ok"⟩ :=
  ⟨(C9_feedback_total ⟨"", ""⟩ 1 2 3 CallResult.threw (fun _ => none)).1 rfl,
   (C9_feedback_total ⟨"k", ""⟩ 1 2 3 CallResult.threw (fun _ => none)).2.1
     (by simp) rfl,
   (C9_feedback_total ⟨"k", ""⟩ 1 2 3 (CallResult.ok none) (fun _ => none)).2.2.1
     (by simp) rfl,
   (C9_feedback_total ⟨"k", ""⟩ 1 2 3 (CallResult.ok (some "x"))
      (fun _ => none)).2.2.2.1 "x" (by simp) rfl rfl,
   (C9_feedback_total ⟨"k", ""⟩ 1 2 3 (CallResult.ok (some "x"))
      (fun _ => some ⟨"Ninja", "ok"⟩)).2.2.2.2 "x" ⟨"Ninja", "ok"⟩ (by simp) rfl rfl⟩

/-- C10: the hit test is strict — an unresolved projectile that survives the
off-screen check registers an outcome exactly when one of the last 4 trail
samples lies strictly inside the circle of the fruit's radius around the
post-integration position; a sample at distance exactly the radius does not
register, and with only such samples the projectile stays live with the
state untouched. -/
theorem C10_hit_strict (c : TickCtx K) (f : Fruit K) (s : GState K)
    (hsl : f.sliced = false)
    (hoff : ¬ ((integrateFruit c.difficulty c.dt f).y > c.height + FRUIT_LIFETIME_Y_OFFSET ∧
               (integrateFruit c.difficulty c.dt f).vy > 0)) :
    ((processFruit c f s).2.1 ≠ [] ↔
       ∃ p ∈ recentN 4 c.trail,
         (p.x - (integrateFruit c.difficulty c.dt f).x) ^ 2 +
             (p.y - (integrateFruit c.difficulty c.dt f).y) ^ 2 < f.radius ^ 2) ∧
    ((∀ p ∈ recentN 4 c.trail,
        (p.x - (integrateFruit c.difficulty c.dt f).x) ^ 2 +
            (p.y - (integrateFruit c.difficulty c.dt f).y) ^ 2 = f.radius ^ 2) →
      processFruit c f s = (s, [], some (integrateFruit c.difficulty c.dt f))) := by
  constructor
  · have hev : (processFruit c f s).2.1 ≠ [] ↔
        hitTest c.trail (integrateFruit c.difficulty c.dt f) = true := by
      by_cases hhit : hitTest c.trail (integrateFruit c.difficulty c.dt f) = true
      · simp only [hhit, iff_true]
        by_cases hb : f.type = FruitType.bomb
        · rw [processFruit_bomb c f s hoff hsl hhit hb]
          simp
        · rw [processFruit_slice c f s hoff hsl hhit hb]
          simp
      · rw [processFruit_miss c f s hoff (fun hc => hhit hc.2)]
        simp [hhit]
    rw [hev, hitTest_iff]
    simp
  · intro hall
    apply processFruit_miss c f s hoff
    rintro ⟨_, hhit⟩
    obtain ⟨p, hp, hlt⟩ := (hitTest_iff _ _).mp hhit
    rw [integrateFruit_radius] at hlt
    rw [hall p hp] at hlt
    exact lt_irrefl _ hlt

/-- C10 witness: one sample strictly inside registers; with the only sample
exactly on the circle nothing registers. -/
theorem C10_hit_strict_witness :
    ((processFruit (⟨qOps, 1000, 1, 0, 0, 0, [⟨0, 0⟩]⟩ : TickCtx ℚ)
        (exFruit 1 FruitType.apple) (exState 3 [])).2.1 ≠ [] ↔
      ∃ p ∈ recentN 4 ([⟨0, 0⟩] : List (Point ℚ)),
        (p.x - (integrateFruit 1 0 (exFruit 1 FruitType.apple)).x) ^ 2 +
            (p.y - (integrateFruit 1 0 (exFruit 1 FruitType.apple)).y) ^ 2 <
          (exFruit 1 FruitType.apple).radius ^ 2) ∧
    ((∀ p ∈ recentN 4 ([⟨0, 0⟩] : List (Point ℚ)),
        (p.x - (integrateFruit 1 0 (exFruit 1 FruitType.apple)).x) ^ 2 +
            (p.y - (integrateFruit 1 0 (exFruit 1 FruitType.apple)).y) ^ 2 =
          (exFruit 1 FruitType.apple).radius ^ 2) →
      processFruit (⟨qOps, 1000, 1, 0, 0, 0, [⟨0, 0⟩]⟩ : TickCtx ℚ)
          (exFruit 1 FruitType.apple) (exState 3 []) =
        (exState 3 [], [], some (integrateFruit 1 0 (exFruit 1 FruitType.apple)))) :=
  C10_hit_strict _ _ _ rfl
    (by norm_num [integrateFruit, exFruit, FRUIT_LIFETIME_Y_OFFSET, GRAVITY])

/-- C2: in a tick, a hit on an unresolved non-bomb projectile creates exactly
the complementary debris pair — tagged left and right, each an impulse of
magnitude 200 perpendicular to the cut line added to the inherited
(post-integration) velocity, the two impulses exactly opposite — and leaves
lives unchanged; a hit on a bomb decrements lives by exactly 1 and creates
zero debris. -/
theorem C2_slice_pair (at2 : ℝ → ℝ → ℝ) (height difficulty dt nowSec cutAngle : ℝ)
    (trail : List (Point ℝ)) (f : Fruit ℝ) (s : GState ℝ)
    (hsl : f.sliced = false)
    (hoff : ¬ ((integrateFruit difficulty dt f).y > height + FRUIT_LIFETIME_Y_OFFSET ∧
               (integrateFruit difficulty dt f).vy > 0))
    (hhit : hitTest trail (integrateFruit difficulty dt f) = true) :
    (f.type ≠ FruitType.bomb →
      (processFruit ⟨⟨Real.cos, Real.sin, at2, Real.pi⟩, height, difficulty, dt, nowSec,
          cutAngle, trail⟩ f s).1.debris =
        s.debris ++
          [(debrisPair Real.cos Real.sin Real.pi
              (integrateFruit difficulty dt f) cutAngle).1,
           (debrisPair Real.cos Real.sin Real.pi
              (integrateFruit difficulty dt f) cutAngle).2] ∧
      (debrisPair Real.cos Real.sin Real.pi
          (integrateFruit difficulty dt f) cutAngle).1.side = false ∧
      (debrisPair Real.cos Real.sin Real.pi
          (integrateFruit difficulty dt f) cutAngle).2.side = true ∧
      (debrisPair Real.cos Real.sin Real.pi
            (integrateFruit difficulty dt f) cutAngle).2.vx -
          (integrateFruit difficulty dt f).vx =
        -((debrisPair Real.cos Real.sin Real.pi
              (integrateFruit difficulty dt f) cutAngle).1.vx -
           (integrateFruit difficulty dt f).vx) ∧
      (debrisPair Real.cos Real.sin Real.pi
            (integrateFruit difficulty dt f) cutAngle).2.vy -
          (integrateFruit difficulty dt f).vy =
        -((debrisPair Real.cos Real.sin Real.pi
              (integrateFruit difficulty dt f) cutAngle).1.vy -
           (integrateFruit difficulty dt f).vy) ∧
      ((debrisPair Real.cos Real.sin Real.pi
            (integrateFruit difficulty dt f) cutAngle).1.vx -
          (integrateFruit difficulty dt f).vx) ^ 2 +
        ((debrisPair Real.cos Real.sin Real.pi
            (integrateFruit difficulty dt f) cutAngle).1.vy -
          (integrateFruit difficulty dt f).vy) ^ 2 = 200 ^ 2 ∧
      ((debrisPair Real.cos Real.sin Real.pi
            (integrateFruit difficulty dt f) cutAngle).1.vx -
          (integrateFruit difficulty dt f).vx) * Real.cos cutAngle +
        ((debrisPair Real.cos Real.sin Real.pi
            (integrateFruit difficulty dt f) cutAngle).1.vy -
          (integrateFruit difficulty dt f).vy) * Real.sin cutAngle = 0 ∧
      (processFruit ⟨⟨Real.cos, Real.sin, at2, Real.pi⟩, height, difficulty, dt, nowSec,
          cutAngle, trail⟩ f s).1.lives = s.lives) ∧
    (f.type = FruitType.bomb →
      (processFruit ⟨⟨Real.cos, Real.sin, at2, Real.pi⟩, height, difficulty, dt, nowSec,
          cutAngle, trail⟩ f s).1.lives = s.lives - 1 ∧
      (processFruit ⟨⟨Real.cos, Real.sin, at2, Real.pi⟩, height, difficulty, dt, nowSec,
          cutAngle, trail⟩ f s).1.debris = s.debris) := by
  have hperp : Real.cos cutAngle * Real.cos (cutAngle - Real.pi/2) +
      Real.sin cutAngle * Real.sin (cutAngle - Real.pi/2) = 0 := by
    have h2 := Real.cos_sub cutAngle (cutAngle - Real.pi/2)
    rw [show cutAngle - (cutAngle - Real.pi/2) = Real.pi/2 by ring,
      Real.cos_pi_div_two] at h2
    linarith
  constructor
  · intro hb
    rw [processFruit_slice _ f s hoff hsl hhit hb]
    refine ⟨rfl, rfl, rfl, ?_, ?_, ?_, ?_, rfl⟩
    · simp only [debrisPair]
      rw [Real.cos_add_pi]
      ring
    · simp only [debrisPair]
      rw [Real.sin_add_pi]
      ring
    · simp only [debrisPair]
      have h3 := Real.sin_sq_add_cos_sq (cutAngle - Real.pi/2)
      linear_combination 40000 * h3
    · simp only [debrisPair]
      linear_combination 200 * hperp
  · intro hb
    rw [processFruit_bomb _ f s hoff hsl hhit hb]
    exact ⟨rfl, rfl⟩

/-- C2 witness: a concrete slice and a concrete bomb hit. -/
theorem C2_slice_pair_witness :
    (processFruit ⟨⟨Real.cos, Real.sin, fun _ _ => 0, Real.pi⟩, 1000, 1, 0, 1, 0,
        [⟨0, 0⟩]⟩ (exRFruit FruitType.apple) exRState).1.debris =
      exRState.debris ++
        [(debrisPair Real.cos Real.sin Real.pi
            (integrateFruit 1 0 (exRFruit FruitType.apple)) 0).1,
         (debrisPair Real.cos Real.sin Real.pi
            (integrateFruit 1 0 (exRFruit FruitType.apple)) 0).2] ∧
    (processFruit ⟨⟨Real.cos, Real.sin, fun _ _ => 0, Real.pi⟩, 1000, 1, 0, 1, 0,
        [⟨0, 0⟩]⟩ (exRFruit FruitType.apple) exRState).1.lives = exRState.lives ∧
    (processFruit ⟨⟨Real.cos, Real.sin, fun _ _ => 0, Real.pi⟩, 1000, 1, 0, 1, 0,
        [⟨0, 0⟩]⟩ (exRFruit FruitType.bomb) exRState).1.lives = exRState.lives - 1 ∧
    (processFruit ⟨⟨Real.cos, Real.sin, fun _ _ => 0, Real.pi⟩, 1000, 1, 0, 1, 0,
        [⟨0, 0⟩]⟩ (exRFruit FruitType.bomb) exRState).1.debris = exRState.debris := by
  have ha := C2_slice_pair (fun _ _ => 0) 1000 1 0 1 0 [⟨0, 0⟩]
    (exRFruit FruitType.apple) exRState rfl
    (by norm_num [integrateFruit, exRFruit, FRUIT_LIFETIME_Y_OFFSET, GRAVITY])
    (by simp only [hitTest, recentN, integrateFruit, exRFruit]
        norm_num)
  have hbm := C2_slice_pair (fun _ _ => 0) 1000 1 0 1 0 [⟨0, 0⟩]
    (exRFruit FruitType.bomb) exRState rfl
    (by norm_num [integrateFruit, exRFruit, FRUIT_LIFETIME_Y_OFFSET, GRAVITY])
    (by simp only [hitTest, recentN, integrateFruit, exRFruit]
        norm_num)
  have ha1 := ha.1 (by simp [exRFruit])
  have hb1 := hbm.2 (by simp [exRFruit])
  exact ⟨ha1.1, ha1.2.2.2.2.2.2.2, hb1.1, hb1.2⟩

/-- C3: each PLAYING tick resets comboLevel to 0 before any slice is
processed exactly when `now - lastSliceTime > COMBO_WINDOW`; a slice then
increments comboLevel and stamps `lastSliceTime := now`, scoring 10 points
plus `comboLevel * 5` when the post-increment comboLevel exceeds 1; a bomb
hit zeroes comboLevel regardless of timing; and three slices in consecutive
ticks whose successive gaps are within COMBO_WINDOW yield the comboLevel
sequence 1, 2, 3. -/
theorem C3_combo_scoring :
    (∀ (m : MathOps K) (height : K) (inp : TickIn K) (s : GState K),
        s.gameState = GameState.PLAYING → s.waitingForHand = false →
        s.fruits ++ inp.pending = [] →
        ¬ (s.spawnTimer < s.timeSinceSpawn + inp.dt) →
        (tick m height inp s).1.combo =
          (if COMBO_WINDOW < inp.now / 1000 - s.lastSliceTime then 0 else s.combo)) ∧
    (∀ (c : TickCtx K) (f : Fruit K) (s : GState K),
        ¬ ((integrateFruit c.difficulty c.dt f).y > c.height + FRUIT_LIFETIME_Y_OFFSET ∧
           (integrateFruit c.difficulty c.dt f).vy > 0) →
        f.sliced = false →
        hitTest c.trail (integrateFruit c.difficulty c.dt f) = true →
        ((f.type ≠ FruitType.bomb →
            (processFruit c f s).1.combo = s.combo + 1 ∧
            (processFruit c f s).1.lastSliceTime = c.nowSec ∧
            (processFruit c f s).1.score =
              s.score +
                (10 + if 1 < s.combo + 1 then ((s.combo + 1 : ℕ) : K) * 5 else 0)) ∧
         (f.type = FruitType.bomb → (processFruit c f s).1.combo = 0))) ∧
    (∀ (m : MathOps K) (height : K) (inp1 inp2 inp3 : TickIn K) (s : GState K)
        (f1 f2 f3 : Fruit K),
        s.gameState = GameState.PLAYING → s.waitingForHand = false →
        s.fruits ++ inp1.pending = [f1] →
        ¬ (s.spawnTimer < s.timeSinceSpawn + inp1.dt) →
        COMBO_WINDOW < inp1.now / 1000 - s.lastSliceTime →
        f1.sliced = false → f1.type ≠ FruitType.bomb →
        ¬ ((integrateFruit (difficultyOf s.score) inp1.dt f1).y >
              height + FRUIT_LIFETIME_Y_OFFSET ∧
           (integrateFruit (difficultyOf s.score) inp1.dt f1).vy > 0) →
        hitTest inp1.trail (integrateFruit (difficultyOf s.score) inp1.dt f1) = true →
        inp2.pending = [f2] →
        ¬ (s.spawnTimer < s.timeSinceSpawn + inp1.dt + inp2.dt) →
        inp2.now / 1000 - inp1.now / 1000 ≤ COMBO_WINDOW →
        f2.sliced = false → f2.type ≠ FruitType.bomb →
        ¬ ((integrateFruit (difficultyOf (tick m height inp1 s).1.score) inp2.dt f2).y >
              height + FRUIT_LIFETIME_Y_OFFSET ∧
           (integrateFruit (difficultyOf (tick m height inp1 s).1.score) inp2.dt f2).vy >
             0) →
        hitTest inp2.trail
          (integrateFruit (difficultyOf (tick m height inp1 s).1.score) inp2.dt f2) =
            true →
        inp3.pending = [f3] →
        ¬ (s.spawnTimer < s.timeSinceSpawn + inp1.dt + inp2.dt + inp3.dt) →
        inp3.now / 1000 - inp2.now / 1000 ≤ COMBO_WINDOW →
        f3.sliced = false → f3.type ≠ FruitType.bomb →
        ¬ ((integrateFruit
              (difficultyOf (tick m height inp2 (tick m height inp1 s).1).1.score)
              inp3.dt f3).y > height + FRUIT_LIFETIME_Y_OFFSET ∧
           (integrateFruit
              (difficultyOf (tick m height inp2 (tick m height inp1 s).1).1.score)
              inp3.dt f3).vy > 0) →
        hitTest inp3.trail
          (integrateFruit
            (difficultyOf (tick m height inp2 (tick m height inp1 s).1).1.score)
            inp3.dt f3) = true →
        (tick m height inp1 s).1.combo = 1 ∧
        (tick m height inp2 (tick m height inp1 s).1).1.combo = 2 ∧
        (tick m height inp3 (tick m height inp2 (tick m height inp1 s).1).1).1.combo =
          3) := by
  refine ⟨?_, ?_, ?_⟩
  · intro m height inp s hgs hw hfr hsp
    rw [tick_no_fruit m height inp s hgs hw hfr hsp]
  · intro c f s hoff hsl hhit
    constructor
    · intro hnb
      rw [processFruit_slice c f s hoff hsl hhit hnb]
      exact ⟨rfl, rfl, rfl⟩
    · intro hb
      rw [processFruit_bomb c f s hoff hsl hhit hb]
  · intro m height inp1 inp2 inp3 s f1 f2 f3 hgs hw hfr1 hsp1 hstale1 hsl1 hnb1
      hoff1 hhit1 hfr2 hsp2 hgap2 hsl2 hnb2 hoff2 hhit2 hfr3 hsp3 hgap3 hsl3 hnb3
      hoff3 hhit3
    have h1 := tick_single_slice m height inp1 s f1 0 hgs hw hfr1 hsp1
      (by rw [if_pos hstale1]) hsl1 hnb1 hoff1 hhit1
    have e1c : (tick m height inp1 s).1.combo = 1 := by rw [h1]
    have e1g : (tick m height inp1 s).1.gameState = GameState.PLAYING := by
      rw [h1]; exact hgs
    have e1w : (tick m height inp1 s).1.waitingForHand = false := by rw [h1]
    have e1f : (tick m height inp1 s).1.fruits = [] := by rw [h1]
    have e1sp : (tick m height inp1 s).1.spawnTimer = s.spawnTimer := by rw [h1]
    have e1t : (tick m height inp1 s).1.timeSinceSpawn =
        s.timeSinceSpawn + inp1.dt := by rw [h1]
    have e1l : (tick m height inp1 s).1.lastSliceTime = inp1.now / 1000 := by rw [h1]
    have h2 := tick_single_slice m height inp2 ((tick m height inp1 s).1) f2 1
      e1g e1w (by rw [e1f]; simpa using hfr2)
      (by rw [e1sp, e1t]; exact hsp2)
      (by rw [e1l, e1c, if_neg (not_lt.mpr hgap2)])
      hsl2 hnb2 hoff2 hhit2
    have e2c : (tick m height inp2 (tick m height inp1 s).1).1.combo = 2 := by rw [h2]
    have e2g : (tick m height inp2 (tick m height inp1 s).1).1.gameState =
        GameState.PLAYING := by rw [h2]; exact e1g
    have e2w : (tick m height inp2 (tick m height inp1 s).1).1.waitingForHand =
        false := by rw [h2]
    have e2f : (tick m height inp2 (tick m height inp1 s).1).1.fruits = [] := by
      rw [h2]
    have e2sp : (tick m height inp2 (tick m height inp1 s).1).1.spawnTimer =
        s.spawnTimer := by rw [h2]; exact e1sp
    have e2t : (tick m height inp2 (tick m height inp1 s).1).1.timeSinceSpawn =
        s.timeSinceSpawn + inp1.dt + inp2.dt := by
      rw [h2]
      dsimp only
      rw [e1t]
    have e2l : (tick m height inp2 (tick m height inp1 s).1).1.lastSliceTime =
        inp2.now / 1000 := by rw [h2]
    have h3 := tick_single_slice m height inp3
      ((tick m height inp2 (tick m height inp1 s).1).1) f3 2
      e2g e2w (by rw [e2f]; simpa using hfr3)
      (by rw [e2sp, e2t]; exact hsp3)
      (by rw [e2l, e2c, if_neg (not_lt.mpr hgap3)])
      hsl3 hnb3 hoff3 hhit3
    have e3c : (tick m height inp3
        (tick m height inp2 (tick m height inp1 s).1).1).1.combo = 3 := by rw [h3]
    exact ⟨e1c, e2c, e3c⟩

/-- C3 witness: combo timeout, slice bookkeeping, bomb reset and the
1, 2, 3 scenario at concrete inputs (slices at 1000 ms, 1200 ms, 1350 ms with
a 0.3 s window). -/
theorem C3_combo_scoring_witness :
    (tick qOps 1000 (c3In 1000 []) (exState 3 [])).1.combo =
      (if COMBO_WINDOW < (c3In 1000 []).now / 1000 - (exState 3 []).lastSliceTime then 0
       else (exState 3 []).combo) ∧
    ((processFruit (⟨qOps, 1000, 1, 0, 1, 0, [⟨0, 0⟩]⟩ : TickCtx ℚ)
        (exFruit 1 FruitType.apple) (exState 3 [])).1.combo =
          (exState 3 []).combo + 1 ∧
      (processFruit (⟨qOps, 1000, 1, 0, 1, 0, [⟨0, 0⟩]⟩ : TickCtx ℚ)
        (exFruit 1 FruitType.apple) (exState 3 [])).1.lastSliceTime =
          (⟨qOps, 1000, 1, 0, 1, 0, [⟨0, 0⟩]⟩ : TickCtx ℚ).nowSec ∧
      (processFruit (⟨qOps, 1000, 1, 0, 1, 0, [⟨0, 0⟩]⟩ : TickCtx ℚ)
        (exFruit 1 FruitType.apple) (exState 3 [])).1.score =
          (exState 3 []).score +
            (10 + if 1 < (exState 3 []).combo + 1
                  then (((exState 3 []).combo + 1 : ℕ) : ℚ) * 5 else 0)) ∧
    (processFruit (⟨qOps, 1000, 1, 0, 1, 0, [⟨0, 0⟩]⟩ : TickCtx ℚ)
        (exFruit 1 FruitType.bomb) (exState 3 [])).1.combo = 0 ∧
    ((tick qOps 1000 (c3In 1000 []) c3Start).1.combo = 1 ∧
     (tick qOps 1000 (c3In 1200 [exFruit 2 FruitType.apple])
        (tick qOps 1000 (c3In 1000 []) c3Start).1).1.combo = 2 ∧
     (tick qOps 1000 (c3In 1350 [exFruit 3 FruitType.apple])
        (tick qOps 1000 (c3In 1200 [exFruit 2 FruitType.apple])
          (tick qOps 1000 (c3In 1000 []) c3Start).1).1).1.combo = 3) := by
  have hB := C3_combo_scoring.2.1 (⟨qOps, 1000, 1, 0, 1, 0, [⟨0, 0⟩]⟩ : TickCtx ℚ)
    (exFruit 1 FruitType.apple) (exState 3 [])
    (by norm_num [integrateFruit, exFruit, FRUIT_LIFETIME_Y_OFFSET, GRAVITY]) rfl
    (by simp only [hitTest, recentN, integrateFruit, exFruit]
        norm_num)
  have hBb := C3_combo_scoring.2.1 (⟨qOps, 1000, 1, 0, 1, 0, [⟨0, 0⟩]⟩ : TickCtx ℚ)
    (exFruit 1 FruitType.bomb) (exState 3 [])
    (by norm_num [integrateFruit, exFruit, FRUIT_LIFETIME_Y_OFFSET, GRAVITY]) rfl
    (by simp only [hitTest, recentN, integrateFruit, exFruit]
        norm_num)
  refine ⟨?_, hB.1 (by simp [exFruit]), hBb.2 rfl, ?_⟩
  · exact C3_combo_scoring.1 qOps 1000 (c3In 1000 []) (exState 3 []) rfl rfl
      (by simp [exState, c3In]) (by norm_num [exState, c3In])
  · exact C3_combo_scoring.2.2 qOps 1000 (c3In 1000 []) (c3In 1200 [exFruit 2 FruitType.apple])
      (c3In 1350 [exFruit 3 FruitType.apple]) c3Start (exFruit 1 FruitType.apple)
      (exFruit 2 FruitType.apple) (exFruit 3 FruitType.apple)
      rfl rfl
      (by simp [c3Start, c3In])
      (by norm_num [c3Start, c3In])
      (by norm_num [c3Start, c3In, COMBO_WINDOW])
      rfl (by simp [exFruit])
      (by norm_num [integrateFruit, exFruit, c3Start, difficultyOf,
        FRUIT_LIFETIME_Y_OFFSET, GRAVITY])
      (by simp only [hitTest, recentN, integrateFruit, exFruit, c3Start, c3In,
          difficultyOf]
          norm_num)
      rfl
      (by norm_num [c3Start, c3In])
      (by norm_num [c3In, COMBO_WINDOW])
      rfl (by simp [exFruit])
      (by norm_num [tick, spawnStep, fruitLoop, processFruit, hitTest, recentN,
        integrateFruit, difficultyOf, cutAngleOf, createDebris, debrisPair, c3Start,
        c3In, exFruit, qOps, GRAVITY, BASE_SPAWN_INTERVAL, COMBO_WINDOW,
        FRUIT_LIFETIME_Y_OFFSET, isReportEv, isBombEv])
      (by norm_num [tick, spawnStep, fruitLoop, processFruit, hitTest, recentN,
        integrateFruit, difficultyOf, cutAngleOf, createDebris, debrisPair, c3Start,
        c3In, exFruit, qOps, GRAVITY, BASE_SPAWN_INTERVAL, COMBO_WINDOW,
        FRUIT_LIFETIME_Y_OFFSET, isReportEv, isBombEv])
      rfl
      (by norm_num [c3Start, c3In])
      (by norm_num [c3In, COMBO_WINDOW])
      rfl (by simp [exFruit])
      (by norm_num [tick, spawnStep, fruitLoop, processFruit, hitTest, recentN,
        integrateFruit, difficultyOf, cutAngleOf, createDebris, debrisPair, c3Start,
        c3In, exFruit, qOps, GRAVITY, BASE_SPAWN_INTERVAL, COMBO_WINDOW,
        FRUIT_LIFETIME_Y_OFFSET, isReportEv, isBombEv])
      (by norm_num [tick, spawnStep, fruitLoop, processFruit, hitTest, recentN,
        integrateFruit, difficultyOf, cutAngleOf, createDebris, debrisPair, c3Start,
        c3In, exFruit, qOps, GRAVITY, BASE_SPAWN_INTERVAL, COMBO_WINDOW,
        FRUIT_LIFETIME_Y_OFFSET, isReportEv, isBombEv])

/-- C4 (amended): the fruit iteration walks the array from the highest index
down, so when several projectiles qualify in the same tick they are evaluated
and their outcomes applied in REVERSE insertion order — the newest-spawned
projectile first — which `fruitLoop = loopInOrder ∘ reverse` states exactly;
each projectile still produces at most one outcome per tick. -/
theorem C4_processing_order :
    (∀ (c : TickCtx K) (fruits : List (Fruit K)) (s : GState K),
        fruitLoop c fruits s =
          ((loopInOrder c fruits.reverse s).1,
           (loopInOrder c fruits.reverse s).2.1,
           (loopInOrder c fruits.reverse s).2.2.reverse)) ∧
    (∀ (c : TickCtx K) (f : Fruit K) (s : GState K),
        (processFruit c f s).2.1.countP isOutcomeEv ≤ 1) :=
  ⟨fruitLoop_eq_loopInOrder_reverse, processFruit_outcome_le_one⟩

/-- C4 counterexample: with two simultaneously-qualifying fruits (ids 1 and 2,
id 1 spawned first), the tick emits the newest fruit's outcome first and with
the lower combo points — `[slice 2 10, slice 1 20]` — not the insertion-order
outcomes `[slice 1 10, slice 2 20]` the claim requires. -/
theorem C4_counterexample :
    (tick qOps 1000 (exIn [])
        (exState 3 [exFruit 1 FruitType.apple, exFruit 2 FruitType.apple])).2 =
      [GEvent.slice 2 10, GEvent.slice 1 20] ∧
    (tick qOps 1000 (exIn [])
        (exState 3 [exFruit 1 FruitType.apple, exFruit 2 FruitType.apple])).2 ≠
      [GEvent.slice 1 10, GEvent.slice 2 20] := by
  norm_num [tick, spawnStep, fruitLoop, processFruit, hitTest, recentN,
    integrateFruit, difficultyOf, cutAngleOf, createDebris, debrisPair, exState,
    exIn, exFruit, qOps, GRAVITY, BASE_SPAWN_INTERVAL, COMBO_WINDOW,
    FRUIT_LIFETIME_Y_OFFSET, isReportEv, isBombEv, apple_eq_bomb_iff_false]

/-- C1 (amended): per tick, lives drop by exactly the number of bomb hits
registered (with no floor at 0), and the game-over report fires once per bomb
hit that leaves lives at 0 or below; consequently over any run from a fresh
session in which no tick registers more than one bomb hit, lives stay in
[0, MAX_LIVES], the report fires at most once, it fires exactly when the
session ends in GAME_OVER, and a GAME_OVER session has exactly 0 lives.  (In
a tick where several bombs qualify, lives can pass below 0 and the report
repeats — see the counterexample.) -/
theorem C1_lives_and_gameover :
    (∀ (m : MathOps K) (height : K) (inp : TickIn K) (s : GState K),
        (tick m height inp s).1.lives =
          s.lives - ((tick m height inp s).2.countP isBombEv : ℤ) ∧
        (tick m height inp s).2.countP isReportEv =
          reportCount s.lives ((tick m height inp s).2.countP isBombEv)) ∧
    (∀ (m : MathOps K) (height : K) (inps : List (TickIn K)) (prev : GState K),
        bombLimited m height inps (resetState prev) = true →
        0 ≤ (runTicks m height inps (resetState prev)).1.lives ∧
        (runTicks m height inps (resetState prev)).1.lives ≤ MAX_LIVES ∧
        (runTicks m height inps (resetState prev)).2 ≤ 1 ∧
        ((runTicks m height inps (resetState prev)).2 = 1 ↔
          (runTicks m height inps (resetState prev)).1.gameState =
            GameState.GAME_OVER) ∧
        ((runTicks m height inps (resetState prev)).1.gameState =
            GameState.GAME_OVER →
          (runTicks m height inps (resetState prev)).1.lives = 0)) := by
  constructor
  · intro m height inp s
    exact ⟨(tick_invariant m height inp s).1, (tick_invariant m height inp s).2.1⟩
  · intro m height inps prev hb
    exact (runTicks_session m height inps (resetState prev) hb).2 rfl
      (by norm_num [resetState, MAX_LIVES]) (by norm_num [resetState, MAX_LIVES])

/-- C1 counterexample: a fresh session takes a bomb on each of two ticks
(3 → 2 → 1 lives) and then a tick in which two bombs qualify against the
trail: lives end at −1 and the game-over report is emitted twice. -/
theorem C1_counterexample :
    (runTicks qOps 1000
        [exIn [exFruit 1 FruitType.bomb], exIn [exFruit 2 FruitType.bomb],
         exIn [exFruit 3 FruitType.bomb, exFruit 4 FruitType.bomb]]
        (resetState (exState 3 []))).1.lives = -1 ∧
    (runTicks qOps 1000
        [exIn [exFruit 1 FruitType.bomb], exIn [exFruit 2 FruitType.bomb],
         exIn [exFruit 3 FruitType.bomb, exFruit 4 FruitType.bomb]]
        (resetState (exState 3 []))).2 = 2 := by
  norm_num [runTicks, tick, spawnStep, fruitLoop, processFruit, hitTest, recentN,
    integrateFruit, difficultyOf, cutAngleOf, createDebris, debrisPair, resetState,
    exState, exIn, exFruit, qOps, GRAVITY, BASE_SPAWN_INTERVAL, COMBO_WINDOW,
    FRUIT_LIFETIME_Y_OFFSET, MAX_LIVES, isReportEv, isBombEv]

/-- C1 witness: the amended per-tick accounting and the bomb-limited session
conclusion at a concrete two-tick run (one bomb, then nothing). -/
theorem C1_lives_and_gameover_witness :
    ((tick qOps 1000 (exIn [exFruit 1 FruitType.bomb]) (exState 3 [])).1.lives =
        (exState 3 []).lives -
          ((tick qOps 1000 (exIn [exFruit 1 FruitType.bomb])
              (exState 3 [])).2.countP isBombEv : ℤ) ∧
      (tick qOps 1000 (exIn [exFruit 1 FruitType.bomb])
          (exState 3 [])).2.countP isReportEv =
        reportCount (exState 3 []).lives
          ((tick qOps 1000 (exIn [exFruit 1 FruitType.bomb])
              (exState 3 [])).2.countP isBombEv)) ∧
    (0 ≤ (runTicks qOps 1000 [exIn [exFruit 1 FruitType.bomb], exIn []]
            (resetState (exState 3 []))).1.lives ∧
      (runTicks qOps 1000 [exIn [exFruit 1 FruitType.bomb], exIn []]
          (resetState (exState 3 []))).1.lives ≤ MAX_LIVES ∧
      (runTicks qOps 1000 [exIn [exFruit 1 FruitType.bomb], exIn []]
          (resetState (exState 3 []))).2 ≤ 1 ∧
      ((runTicks qOps 1000 [exIn [exFruit 1 FruitType.bomb], exIn []]
            (resetState (exState 3 []))).2 = 1 ↔
        (runTicks qOps 1000 [exIn [exFruit 1 FruitType.bomb], exIn []]
            (resetState (exState 3 []))).1.gameState = GameState.GAME_OVER) ∧
      ((runTicks qOps 1000 [exIn [exFruit 1 FruitType.bomb], exIn []]
            (resetState (exState 3 []))).1.gameState = GameState.GAME_OVER →
        (runTicks qOps 1000 [exIn [exFruit 1 FruitType.bomb], exIn []]
            (resetState (exState 3 []))).1.lives = 0)) :=
  ⟨C1_lives_and_gameover.1 qOps 1000 (exIn [exFruit 1 FruitType.bomb]) (exState 3 []),
   C1_lives_and_gameover.2 qOps 1000 [exIn [exFruit 1 FruitType.bomb], exIn []]
     (exState 3 [])
     (by norm_num [bombLimited, runTicks, tick, spawnStep, fruitLoop, processFruit,
       hitTest, recentN, integrateFruit, difficultyOf, cutAngleOf, createDebris,
       debrisPair, resetState, exState, exIn, exFruit, qOps, GRAVITY,
       BASE_SPAWN_INTERVAL, COMBO_WINDOW, FRUIT_LIFETIME_Y_OFFSET, MAX_LIVES,
       isReportEv, isBombEv])⟩

end Claims

end NinjaSlicer
